import Mathlib

/-!
Shallow embedding of `src/lib/mesh-demo-stack.ts` (class `MeshDemoStack`).

The stack synthesizes a demo App Mesh topology: one gateway service, one
colorteller Fargate service per color variant, and a mesh overlay (one
virtual node per variant, a virtual router, a route, a virtual service).
The embedding keeps the data the specification's claims are about: the
Cloud Map service records, the virtual-node specs, the route's weighted
targets, the virtual-service name, the gateway's COLOR_TELLER_ENDPOINT
environment value, and the `addDependsOn` edges recorded during
`createMesh`.  JavaScript-specific behaviour is modelled explicitly:
`colors[0]` on an empty array is `undefined`, which template-literal
interpolation and `String.prototype.startsWith` coerce to the string
"undefined"; `color.slice(1)` drops the first character of the string.
-/

namespace MeshDemo

/-- `APP_PORT` field: gateway and colorteller listen on 8080. -/
def APP_PORT : Nat := 8080

/-- `DEF_TTL` field: `Duration.seconds(10)`, modelled as seconds. -/
def DEF_TTL : Nat := 10

/-- `colors` field default: `["blue", "green"]`. -/
def defaultColors : List String := ["blue", "green"]

/-- `namespace` field default: `"mesh.local"`. -/
def defaultNamespaceName : String := "mesh.local"

/-- JavaScript `s.startsWith(p)`: the characters of `p` are a prefix of the
characters of `s`. -/
def jsStartsWith (s p : String) : Bool :=
  p.data.isPrefixOf s.data

/-- A colorteller Fargate service as far as the plan is concerned: the COLOR
environment value, the Cloud Map service name, and the Cloud Map dns ttl. -/
structure ServiceRecord where
  color : String
  serviceName : String
  dnsTtl : Option Nat
  deriving DecidableEq, Repr

/-- A `CfnVirtualNode` spec: name, listener port, service-discovery dns
hostname. -/
structure VirtualNode where
  virtualNodeName : String
  port : Nat
  hostname : String
  deriving DecidableEq, Repr

/-- A `CfnVirtualRouter` spec: name and listener port. -/
structure RouterSpec where
  virtualRouterName : String
  port : Nat
  deriving DecidableEq, Repr

/-- One weighted target of the route's http action. -/
structure WeightedTarget where
  virtualNode : String
  weight : Nat
  deriving DecidableEq, Repr

/-- A `CfnRoute` spec; `matchPath` is the http match path of the route
(the source sets it to "/"). -/
structure RouteSpec where
  routeName : String
  virtualRouterName : String
  matchPath : String
  weightedTargets : List WeightedTarget
  deriving DecidableEq, Repr

/-- A `CfnVirtualService` spec: name and the router set as its provider. -/
structure VirtualServiceSpec where
  virtualServiceName : String
  providerRouterName : String
  deriving DecidableEq, Repr

/-- The resources `addDependsOn` is called on or with in `createMesh`. -/
inductive Resource where
  | mesh
  | virtualNode (name : String)
  | router
  | route
  | virtualService
  deriving DecidableEq, Repr

/-- `createGateway`: the COLOR_TELLER_ENDPOINT environment value
`colorteller.${this.namespace}:${this.APP_PORT}`. -/
def gatewayEndpoint (ns : String) : String :=
  "colorteller." ++ ns ++ ":" ++ toString APP_PORT

/-- `createGateway`: the gateway's own Cloud Map options carry no dns ttl
(`cloudMapOptions: { name: "gateway" }`). -/
def gatewayDnsTtl : Option Nat :=
  none

/-- The local closure `create(color, serviceName)` inside `createColorTeller`:
every colorteller service registers in Cloud Map under `serviceName` with
`dnsTtl: this.DEF_TTL`, and its container gets `COLOR: color`. -/
def create (color serviceName : String) : ServiceRecord :=
  { color := color, serviceName := serviceName, dnsTtl := some DEF_TTL }

/-- `createColorTeller(...colors)`: first `create(colors[0], "colorteller")`,
then `colors.forEach(color => create(color.slice(1), "colorteller-" + color))`.
`colors.headD "undefined"` models the interpolation of `colors[0]` when the
array is empty; `color.drop 1` models `color.slice(1)`. -/
def createColorTeller (colors : List String) : List ServiceRecord :=
  create (colors.headD "undefined") "colorteller" ::
    colors.map (fun color => create (color.drop 1) ("colorteller-" ++ color))

/-- `createVirtualNodes`: one `CfnVirtualNode` per color, named `"<color>-vn"`,
listening on `APP_PORT`, with dns hostname `"colorteller"` when
`name.startsWith(this.colors[0])` and the node's own name otherwise. -/
def createVirtualNodes (colors : List String) : List VirtualNode :=
  colors.map fun color =>
    let name := color ++ "-vn"
    { virtualNodeName := name
      port := APP_PORT
      hostname := if jsStartsWith name (colors.headD "undefined") then "colorteller" else name }

/-- `createVirtualRouter`: the single router `"colorteller-vr"` on `APP_PORT`. -/
def createVirtualRouter : RouterSpec :=
  { virtualRouterName := "colorteller-vr", port := APP_PORT }

/-- `createRoute(router)`: the single route `"colorteller-route"` matching "/",
with the hard-coded weighted target `{ virtualNode: "blue-vn", weight: 1 }`. -/
def createRoute (router : RouterSpec) : RouteSpec :=
  { routeName := "colorteller-route"
    virtualRouterName := router.virtualRouterName
    matchPath := "/"
    weightedTargets := [{ virtualNode := "blue-vn", weight := 1 }] }

/-- `createVirtualService(router)`: name `colorteller.${this.namespace}`, with
the router `"colorteller-vr"` as provider. -/
def createVirtualService (ns : String) : VirtualServiceSpec :=
  { virtualServiceName := "colorteller." ++ ns
    providerRouterName := "colorteller-vr" }

/-- The `addDependsOn(this.mesh)` calls in `createVirtualNodes`: each virtual
node depends on the mesh. -/
def virtualNodeEdges (colors : List String) : List (Resource × Resource) :=
  (createVirtualNodes colors).map fun n =>
    (Resource.mesh, Resource.virtualNode n.virtualNodeName)

/-- `router.addDependsOn(this.mesh)` in `createVirtualRouter`. -/
def virtualRouterEdge : Resource × Resource :=
  (Resource.mesh, Resource.router)

/-- `route.addDependsOn(router)` in `createRoute`. -/
def routeEdge : Resource × Resource :=
  (Resource.router, Resource.route)

/-- `svc.addDependsOn(router)` in `createVirtualService`. -/
def virtualServiceEdge : Resource × Resource :=
  (Resource.router, Resource.virtualService)

/-- All dependency edges recorded during `createMesh`, in source order. -/
def createMeshEdges (colors : List String) : List (Resource × Resource) :=
  virtualNodeEdges colors ++ [virtualRouterEdge, routeEdge, virtualServiceEdge]

/-- Everything the constructor builds that the claims are about. -/
structure Plan where
  gatewayEnv : String
  services : List ServiceRecord
  virtualNodes : List VirtualNode
  router : RouterSpec
  route : RouteSpec
  virtualService : VirtualServiceSpec
  edges : List (Resource × Resource)
  deriving DecidableEq, Repr

/-- The `MeshDemoStack` constructor: `createGateway`, then
`createColorTeller(...this.colors)`, then `createMesh` (virtual nodes, router,
route, virtual service, and their dependency edges). -/
def buildStack (colors : List String) (ns : String) : Plan :=
  { gatewayEnv := gatewayEndpoint ns
    services := createColorTeller colors
    virtualNodes := createVirtualNodes colors
    router := createVirtualRouter
    route := createRoute createVirtualRouter
    virtualService := createVirtualService ns
    edges := createMeshEdges colors }

/-- Helper: a color's own node name always starts with that color, so the
default color's node always hits the "colorteller" branch. -/
theorem jsStartsWith_append (c s : String) : jsStartsWith (c ++ s) c = true := by
  simp [jsStartsWith]

/-- C1 fails as stated: with variants ["blue", "bluegreen"], the node of the
variant at index 1 gets hostname "colorteller", not its own node name
"bluegreen-vn", because the source decides the default case by a string-prefix
test (`name.startsWith(this.colors[0])`), not by index. -/
theorem c1_counterexample :
    createVirtualNodes ["blue", "bluegreen"]
      = [{ virtualNodeName := "blue-vn", port := APP_PORT, hostname := "colorteller" },
         { virtualNodeName := "bluegreen-vn", port := APP_PORT, hostname := "colorteller" }]
      ∧ ("colorteller" : String) ≠ "bluegreen-vn" := by
  decide

/-- C1 (amended): for every non-empty variant list in which no later variant's
node name starts with the first variant string, the virtual node at index 0
has service-discovery hostname "colorteller" and every later virtual node's
hostname is its own node name `"<variant>-vn"`. -/
theorem c1_hostnames (colors : List String) (hne : colors ≠ [])
    (hpre : ∀ c ∈ colors.tail, jsStartsWith (c ++ "-vn") (colors.headD "undefined") = false) :
    createVirtualNodes colors
      = { virtualNodeName := colors.headD "undefined" ++ "-vn", port := APP_PORT,
          hostname := "colorteller" } ::
        colors.tail.map (fun c =>
          { virtualNodeName := c ++ "-vn", port := APP_PORT, hostname := c ++ "-vn" }) := by
  obtain ⟨c, cs, rfl⟩ := List.exists_cons_of_ne_nil hne
  simp only [List.headD_cons, List.tail_cons] at hpre ⊢
  simp only [createVirtualNodes, List.map_cons, List.cons.injEq]
  constructor
  · simp [jsStartsWith_append]
  · refine List.map_congr_left fun x hx => ?_
    simp [hpre x hx]

/-- C1 witness: the amended statement at the default variants ["blue", "green"]. -/
theorem c1_hostnames_witness :
    createVirtualNodes ["blue", "green"]
      = { virtualNodeName := (["blue", "green"] : List String).headD "undefined" ++ "-vn",
          port := APP_PORT, hostname := "colorteller" } ::
        (["blue", "green"] : List String).tail.map (fun c =>
          { virtualNodeName := c ++ "-vn", port := APP_PORT, hostname := c ++ "-vn" }) :=
  c1_hostnames ["blue", "green"] (by decide) (by decide)

/-- C2 fails as stated: with variant list ["red"], the route still targets the
hard-coded node name "blue-vn", which is not among the constructed virtual
nodes' names. -/
theorem c2_counterexample :
    ¬ ∀ t ∈ (buildStack ["red"] "mesh.local").route.weightedTargets,
        t.virtualNode
          ∈ (buildStack ["red"] "mesh.local").virtualNodes.map VirtualNode.virtualNodeName := by
  decide

/-- C2 (amended): for every variant list containing "blue", every virtual-node
name referenced as a weighted target by the constructed route exists among the
virtual nodes constructed in the same plan. -/
theorem c2_no_dangling (colors : List String) (ns : String) (hblue : "blue" ∈ colors) :
    ∀ t ∈ (buildStack colors ns).route.weightedTargets,
      t.virtualNode
        ∈ (buildStack colors ns).virtualNodes.map VirtualNode.virtualNodeName := by
  intro t ht
  simp only [buildStack, createRoute, List.mem_singleton] at ht
  subst ht
  simp only [buildStack, createVirtualNodes, List.map_map, List.mem_map, Function.comp]
  exact ⟨"blue", hblue, rfl⟩

/-- C2 witness: the amended statement at the default plan, at the route's
single target. -/
theorem c2_no_dangling_witness :
    ("blue-vn" : String)
      ∈ (buildStack ["blue", "green"] "mesh.local").virtualNodes.map VirtualNode.virtualNodeName :=
  c2_no_dangling ["blue", "green"] "mesh.local" (by decide)
    { virtualNode := "blue-vn", weight := 1 } (by decide)

/-- C3 fails as stated: with variant list ["green"], the route's single
weighted target is still the hard-coded "blue-vn", not the first variant's
node "green-vn". -/
theorem c3_counterexample :
    (buildStack ["green"] "mesh.local").route.weightedTargets
        = [{ virtualNode := "blue-vn", weight := 1 }]
      ∧ ({ virtualNode := "blue-vn", weight := 1 } : WeightedTarget)
          ≠ { virtualNode := "green-vn", weight := 1 } := by
  decide

/-- C3 (amended): for every variant list and namespace the route's
weighted-target list is exactly the one hard-coded entry `{blue-vn, weight 1}`,
and whenever the first variant is "blue" (as in the default configuration)
that single entry is the first variant's virtual node with weight 1 (100% of
weight). -/
theorem c3_route_targets (colors : List String) (ns : String) :
    (buildStack colors ns).route.weightedTargets
        = [{ virtualNode := "blue-vn", weight := 1 }]
      ∧ (colors.headD "undefined" = "blue" →
          (buildStack colors ns).route.weightedTargets
            = [{ virtualNode := colors.headD "undefined" ++ "-vn", weight := 1 }]) := by
  refine ⟨rfl, fun hfirst => ?_⟩
  rw [hfirst]
  rfl

/-- C4 (code bug): on the default variants ["blue", "green"] the code creates
three service records, not one per variant: the forEach runs over all colors
(not `colors.slice(1)`) and mangles each identifier with `color.slice(1)`, so
the first variant is re-processed as "lue" under "colorteller-blue" and the
second is registered as "reen" under "colorteller-green". -/
theorem c4_code_eval :
    createColorTeller ["blue", "green"]
        = [{ color := "blue", serviceName := "colorteller", dnsTtl := some DEF_TTL },
           { color := "lue", serviceName := "colorteller-blue", dnsTtl := some DEF_TTL },
           { color := "reen", serviceName := "colorteller-green", dnsTtl := some DEF_TTL }]
      ∧ (createColorTeller ["blue", "green"]).length
          ≠ (["blue", "green"] : List String).length := by
  decide

/-- C5 (code bug): on the empty variant list the constructor neither raises an
error nor skips provisioning: it still emits a colorteller service record
(interpolating the undefined `colors[0]` as "undefined"), a router, a route
whose target "blue-vn" dangles, and a virtual service, while creating no
virtual node at all. -/
theorem c5_code_eval :
    (buildStack [] "mesh.local").services
        = [{ color := "undefined", serviceName := "colorteller", dnsTtl := some DEF_TTL }]
      ∧ (buildStack [] "mesh.local").route.weightedTargets
          = [{ virtualNode := "blue-vn", weight := 1 }]
      ∧ (buildStack [] "mesh.local").virtualNodes = [] := by
  decide

/-- C6 fails as stated: the virtual service's recorded dependency is on the
router, not on the route, and an additional mesh → router edge is recorded. -/
theorem c6_counterexample :
    (Resource.route, Resource.virtualService) ∉ createMeshEdges ["blue", "green"]
      ∧ (Resource.mesh, Resource.router) ∈ createMeshEdges ["blue", "green"] := by
  decide

/-- C6 (amended): the dependency edges recorded during plan construction are
exactly mesh → each virtual node, mesh → router, router → route, and
router → virtual service; in particular every edge pointing at the router
comes from the mesh, so no virtual node → router edge is recorded. -/
theorem c6_edges (colors : List String) :
    createMeshEdges colors
        = colors.map (fun c => (Resource.mesh, Resource.virtualNode (c ++ "-vn")))
          ++ [(Resource.mesh, Resource.router), (Resource.router, Resource.route),
              (Resource.router, Resource.virtualService)]
      ∧ ∀ e ∈ createMeshEdges colors, e.2 = Resource.router → e.1 = Resource.mesh := by
  constructor
  · simp [createMeshEdges, virtualNodeEdges, createVirtualNodes, List.map_map,
      virtualRouterEdge, routeEdge, virtualServiceEdge, Function.comp]
  · intro e he hrouter
    simp only [createMeshEdges, virtualNodeEdges, createVirtualNodes, List.map_map,
      virtualRouterEdge, routeEdge, virtualServiceEdge, List.mem_append, List.mem_map,
      Function.comp, List.mem_cons, List.not_mem_nil, or_false] at he
    rcases he with ⟨c, _, rfl⟩ | rfl | rfl | rfl <;> simp_all

/-- C7 fails as stated: the service record of the default variant (the one
registered under the canonical name "colorteller") carries the short ttl too,
because the `create` closure always sets `dnsTtl: this.DEF_TTL`. -/
theorem c7_counterexample :
    ((createColorTeller ["blue", "green"]).filter
          (fun r => r.serviceName == "colorteller")).map ServiceRecord.dnsTtl
        = [some DEF_TTL]
      ∧ some DEF_TTL ≠ (none : Option Nat) := by
  decide

/-- C7 (amended): every colorteller service record, the default variant's
included, carries the short DNS ttl of 10 seconds; only the gateway's own
Cloud Map registration omits the ttl. -/
theorem c7_ttl (colors : List String) :
    (∀ r ∈ createColorTeller colors, r.dnsTtl = some DEF_TTL) ∧ gatewayDnsTtl = none := by
  refine ⟨fun r hr => ?_, rfl⟩
  simp only [createColorTeller, create, List.mem_cons, List.mem_map] at hr
  rcases hr with rfl | ⟨c, _, rfl⟩ <;> rfl

/-- C8 (code bug): the empty variant identifier is accepted without any
`InvalidVariantError`: service records "colorteller" and "colorteller-" and a
virtual node named "-vn" are still produced (the source has no validation or
error path at all). -/
theorem c8_code_eval :
    createColorTeller [""]
        = [{ color := "", serviceName := "colorteller", dnsTtl := some DEF_TTL },
           { color := "", serviceName := "colorteller-", dnsTtl := some DEF_TTL }]
      ∧ createVirtualNodes [""]
          = [{ virtualNodeName := "-vn", port := APP_PORT, hostname := "colorteller" }] := by
  decide

/-- C9: for variants ["blue", "green"] and namespace "mesh.local", the plan
has virtual nodes blue-vn (hostname colorteller) and green-vn (hostname
green-vn), a route whose weighted targets are exactly [{blue-vn, weight 1}],
and a virtual service named colorteller.mesh.local. -/
theorem c9_default_plan :
    (buildStack ["blue", "green"] "mesh.local").virtualNodes
        = [{ virtualNodeName := "blue-vn", port := APP_PORT, hostname := "colorteller" },
           { virtualNodeName := "green-vn", port := APP_PORT, hostname := "green-vn" }]
      ∧ (buildStack ["blue", "green"] "mesh.local").route.weightedTargets
          = [{ virtualNode := "blue-vn", weight := 1 }]
      ∧ (buildStack ["blue", "green"] "mesh.local").virtualService.virtualServiceName
          = "colorteller.mesh.local" := by
  decide

/-- C10: for every variant list and namespace, the gateway's
COLOR_TELLER_ENDPOINT environment value is the virtual service's name followed
by ":" and the application port, and that port prints as "8080". -/
theorem c10_gateway_endpoint (colors : List String) (ns : String) :
    (buildStack colors ns).gatewayEnv
        = (buildStack colors ns).virtualService.virtualServiceName ++ ":" ++ toString APP_PORT
      ∧ toString APP_PORT = "8080" := by
  exact ⟨rfl, by decide⟩

end MeshDemo
